import Mathlib

/-!
Shallow embedding of the Emoji Tic Tac Toe front-end
(`src/tic_tac_toe_frontend/App.tsx`).

The component owns a single piece of view state (`GameState`) and four
asynchronous operations: the mount-time initialisation (health check then
create-game), cell press (submit move), reset, and the shared payload
adoption helper `updateFromPayload`.  Each operation is modelled as a pure
function from the pre-state and the (abstract) HTTP outcome to the
post-state together with a flag recording whether a network request was
issued.  JavaScript `undefined` is modelled with `Option`: a board cell is
`Option Mark` (`none` is the JSON `null`), and indexing a 9-element array
out of range yields the outer `none` of `Option (Option Mark)`
(JavaScript `undefined`).
-/

namespace TicTacToe

/-- A player mark, `'X' | 'O'` in the source. -/
inductive Mark where
  | X
  | O
deriving DecidableEq, Repr

/-- The view state of `App`: the seven `useState` fields declared at
`App.tsx` lines 53-59. -/
structure GameState where
  gameId : Option String
  board : List (Option Mark)
  nextPlayer : Mark
  winner : Option Mark
  isDraw : Bool
  isLoading : Bool
  statusMessage : String
deriving DecidableEq, Repr

/-- A response payload, `Partial<GameStatePayload>`: every field may be
absent (outer `none` = JavaScript `undefined`).  `nextPlayer` is kept as a
raw string because the source validates it against `'X'`/`'O'` itself;
`board` is `none` when the field is missing or not an array. -/
structure Payload where
  id : Option String
  board : Option (List (Option Mark))
  nextPlayer : Option String
  winner : Option (Option Mark)
  isDraw : Option Bool
deriving DecidableEq, Repr

/-- Outcome of one `fetch` call: either the promise rejected
(network failure, carrying the error message), or a response arrived with
its `ok` flag, numeric `status`, body `text()` and parsed `json()`
(`Except.error` when `json()` would throw). -/
inductive FetchResult where
  | netError (msg : String)
  | response (ok : Bool) (status : Nat) (text : String) (json : Except String Payload)

/-- JavaScript whitespace as stripped by `String.prototype.trim` (the
ASCII part: space, tab, line feed, carriage return, vertical tab, form
feed). -/
def jsWhitespace (c : Char) : Bool :=
  c = ' ' || c = '\t' || c = '\n' || c = '\x0d' || c = '\x0b' || c = '\x0c'

/-- JavaScript `s.trim()`: strip whitespace from both ends. -/
def jsTrim (s : String) : String :=
  ⟨((s.data.dropWhile jsWhitespace).reverse.dropWhile jsWhitespace).reverse⟩

/-- JavaScript `s.endsWith(p)` (without a position argument). -/
def jsEndsWith (s p : String) : Bool :=
  p.data.isSuffixOf s.data

/-- JavaScript truthiness of `payload?.id` (a string or `undefined`):
truthy exactly when present and non-empty. -/
def idTruthy : Option String → Bool
  | some s => s ≠ ""
  | none => false

/-- The source's board guard `Array.isArray(payload?.board) &&
payload.board.length === 9`. -/
def boardValid : Option (List (Option Mark)) → Bool
  | some b => b.length == 9
  | none => false

/-- The source's guard `payload?.nextPlayer === 'X' ||
payload?.nextPlayer === 'O'`. -/
def nextPlayerValid (np : Option String) : Bool :=
  np == some "X" || np == some "O"

/-- Source function `updateFromPayload` (App.tsx lines 84-104): `id`, `board` and
`nextPlayer` are guarded and skipped when invalid, while `winner` is set
to `payload?.winner ?? null` and `isDraw` to `Boolean(payload?.isDraw)`
unconditionally. -/
def updateFromPayload (p : Payload) (s : GameState) : GameState :=
  { s with
    gameId := if idTruthy p.id then p.id else s.gameId
    board := match p.board with
      | some b => if b.length = 9 then b else s.board
      | none => s.board
    nextPlayer :=
      if p.nextPlayer = some "X" then Mark.X
      else if p.nextPlayer = some "O" then Mark.O
      else s.nextPlayer
    winner := p.winner.getD none
    isDraw := p.isDraw.getD false }

/-- The initial state set up by the `useState` initialisers. -/
def initialState : GameState :=
  { gameId := none
    board := List.replicate 9 none
    nextPlayer := Mark.X
    winner := none
    isDraw := false
    isLoading := true
    statusMessage := "Initializing..." }

/-- Source memo `canPlay` (App.tsx line 144): `!isLoading && !winner && !isDraw`. -/
def canPlay (s : GameState) : Bool :=
  !s.isLoading && s.winner.isNone && !s.isDraw

/-- JavaScript truthiness of `!gameId` for `gameId : string | null`:
falsy when `null` or the empty string. -/
def gameIdFalsy : Option String → Bool
  | none => true
  | some g => g == ""

/-- JavaScript `board[index]` on `board : Array<'X'|'O'|null>`: the outer
`none` is `undefined` (negative or past-the-end index). -/
def jsCellAt (b : List (Option Mark)) (i : Int) : Option (Option Mark) :=
  if i < 0 then none else b.get? i.toNat

/-- Source handler `onCellPress` (App.tsx lines 146-178): the three guards return without
any request; otherwise the move endpoint is called and the completion
handler runs.  The second component records whether `fetch` was issued. -/
def onCellPress (s : GameState) (index : Int) (r : FetchResult) :
    GameState × Bool :=
  if !canPlay s then (s, false)
  else if gameIdFalsy s.gameId then (s, false)
  else if jsCellAt s.board index ≠ some none then (s, false)
  else
    match r with
    | .netError msg =>
        ({ s with isLoading := false, statusMessage := "Error: " ++ msg }, true)
    | .response ok status text json =>
        if !ok then
          ({ s with
              isLoading := false,
              statusMessage :=
                "Error: " ++ jsTrim ("Move failed: " ++ toString status ++ " " ++ text) },
           true)
        else
          match json with
          | .error m =>
              ({ s with isLoading := false, statusMessage := "Error: " ++ m }, true)
          | .ok p =>
              ({ updateFromPayload p s with
                 isLoading := false, statusMessage := "Move accepted." }, true)

/-- Source handler `onReset` (App.tsx lines 180-205): guarded only by `!gameId`. -/
def onReset (s : GameState) (r : FetchResult) : GameState × Bool :=
  if gameIdFalsy s.gameId then (s, false)
  else
    match r with
    | .netError msg =>
        ({ s with isLoading := false, statusMessage := "Error: " ++ msg }, true)
    | .response ok status text json =>
        if !ok then
          ({ s with
              isLoading := false,
              statusMessage :=
                "Error: " ++ jsTrim ("Reset failed: " ++ toString status ++ " " ++ text) },
           true)
        else
          match json with
          | .error m =>
              ({ s with isLoading := false, statusMessage := "Error: " ++ m }, true)
          | .ok p =>
              ({ updateFromPayload p s with
                 isLoading := false, statusMessage := "Game reset." }, true)

/-- The mount-time `useEffect` initialisation (App.tsx lines 107-142):
health check first; only on a successful (`ok`) health response is the
create-game request issued.  The second component records whether the
create-game `fetch` was issued. -/
def initOp (s : GameState) (health create : FetchResult) : GameState × Bool :=
  match health with
  | .netError msg =>
      ({ s with isLoading := false, statusMessage := "Error: " ++ msg }, false)
  | .response ok status _ _ =>
      if !ok then
        ({ s with
            isLoading := false,
            statusMessage := "Error: " ++ ("Health check failed: " ++ toString status) },
         false)
      else
        match create with
        | .netError msg =>
            ({ s with isLoading := false, statusMessage := "Error: " ++ msg }, true)
        | .response cok cstatus _ cjson =>
            if !cok then
              ({ s with
                  isLoading := false,
                  statusMessage :=
                    "Error: " ++ ("Failed to create game: " ++ toString cstatus) },
               true)
            else
              match cjson with
              | .error m =>
                  ({ s with isLoading := false, statusMessage := "Error: " ++ m }, true)
              | .ok p =>
                  ({ updateFromPayload p s with
                     isLoading := false, statusMessage := "Game ready!" }, true)

/-- Source helper `toEmoji` (App.tsx lines 62-66). -/
def toEmoji : Option Mark → String
  | some Mark.X => "❌"
  | some Mark.O => "⭕️"
  | none => "⬜️"

/-- The inline ternary `m === 'X' ? '❌' : '⭕️'` used by
`computedStatus` for both the winner and the next player. -/
def markEmoji : Mark → String
  | Mark.X => "❌"
  | Mark.O => "⭕️"

/-- Source memo `computedStatus` (App.tsx lines 69-74). -/
def computedStatus (s : GameState) : String :=
  if s.isLoading then "Loading..."
  else
    match s.winner with
    | some w => "Winner: " ++ markEmoji w
    | none =>
        if s.isDraw then "Draw!"
        else "Turn: " ++ markEmoji s.nextPlayer

/-- The grid render maps each board cell through `toEmoji`
(App.tsx lines 232-252). -/
def renderedCells (s : GameState) : List String :=
  s.board.map toEmoji

/-- Remove every trailing `'/'`: the source's `base.replace(/\/+$/, '')`. -/
def stripTrailingSlashes (s : String) : String :=
  ⟨(s.data.reverse.dropWhile (fun c => c = '/')).reverse⟩

/-- Source memo `API_BASE` (App.tsx lines 45-50): base-URL resolution, as a function of the
environment variable `EXPO_PUBLIC_BACKEND_URL` (`none` = unset). -/
def apiBase (fromEnv : Option String) : String :=
  let base := match fromEnv with
    | some s => if s ≠ "" ∧ 0 < (jsTrim s).length then s else "http://localhost:3001"
    | none => "http://localhost:3001"
  if jsEndsWith base "/api" then base else stripTrailingSlashes base ++ "/api"

/-- The claim's wording of base-URL resolution, for comparison with
`apiBase`: the environment URL when non-empty after trimming, else the
localhost fallback; returned unchanged when it already ends with `/api`,
otherwise trailing slashes are stripped and `/api` is appended. -/
def apiBaseSpec (fromEnv : Option String) : String :=
  let chosen := match fromEnv with
    | some s => if jsTrim s ≠ "" then s else "http://localhost:3001"
    | none => "http://localhost:3001"
  if jsEndsWith chosen "/api" then chosen
  else stripTrailingSlashes chosen ++ "/api"

/-- States reachable by the view: the initial state followed by any
sequence of completed operations. -/
inductive Reachable : GameState → Prop
  | init : Reachable initialState
  | initOp {s : GameState} (h c : FetchResult) :
      Reachable s → Reachable (initOp s h c).1
  | move {s : GameState} (i : Int) (r : FetchResult) :
      Reachable s → Reachable (onCellPress s i r).1
  | reset {s : GameState} (r : FetchResult) :
      Reachable s → Reachable (onReset s r).1

/-! Concrete values used to exercise the model. -/

/-- A payload with every field missing (the JSON object `{}`). -/
def emptyPayload : Payload := ⟨none, none, none, none, none⟩

/-- A finished game: `X` has won, it is `O`'s turn record, not loading. -/
def sampleWinState : GameState :=
  { gameId := some "g1"
    board := List.replicate 9 none
    nextPlayer := Mark.O
    winner := some Mark.X
    isDraw := false
    isLoading := false
    statusMessage := "ok" }

/-- The board after a first move in the centre cell. -/
def moveBoard : List (Option Mark) :=
  [none, none, none, none, some Mark.X, none, none, none, none]

/-- A move payload carrying a valid board but no `nextPlayer`. -/
def movePayload : Payload :=
  ⟨none, some moveBoard, none, some none, some false⟩

/-- The create-game payload of the spec's scenario. -/
def scenarioPayload : Payload :=
  ⟨some "g1", some (List.replicate 9 none), some "X", some none, some false⟩

/-- The state after a successful initialisation with `scenarioPayload`. -/
def scenarioInit : GameState :=
  (initOp initialState (FetchResult.response true 200 "" (Except.error ""))
    (FetchResult.response true 200 "" (Except.ok scenarioPayload))).1

/-- A non-2xx response shared by the error-path examples. -/
def r500 : FetchResult := FetchResult.response false 500 "boom" (Except.error "")

/-! Theorems for the claims. -/

/-- C1 counterexample: the claim says a payload with a missing `winner`
field leaves the previous `winner` unchanged; on the code, adopting the
empty payload over a state whose winner is `X` clears the winner. -/
theorem updateFromPayload_winner_not_preserved :
    emptyPayload.winner = none
    ∧ sampleWinState.winner = some Mark.X
    ∧ (updateFromPayload emptyPayload sampleWinState).winner
        ≠ sampleWinState.winner := by
  decide

/-- C1 (amended): payload adoption validates `id` (truthy), `board`
(array of exactly 9 elements) and `nextPlayer` (`'X'` or `'O'`) and skips
the invalid or missing ones, keeping the previous values; `winner` and
`isDraw` are not guarded: `winner` becomes the payload's winner (`null`
when missing) and `isDraw` the truthiness of the payload's `isDraw`. -/
theorem updateFromPayload_validation (p : Payload) (s : GameState) :
    (idTruthy p.id = false → (updateFromPayload p s).gameId = s.gameId)
    ∧ (idTruthy p.id = true → (updateFromPayload p s).gameId = p.id)
    ∧ (boardValid p.board = false → (updateFromPayload p s).board = s.board)
    ∧ (∀ b, p.board = some b → b.length = 9 → (updateFromPayload p s).board = b)
    ∧ (nextPlayerValid p.nextPlayer = false →
        (updateFromPayload p s).nextPlayer = s.nextPlayer)
    ∧ (updateFromPayload p s).winner = p.winner.getD none
    ∧ (updateFromPayload p s).isDraw = p.isDraw.getD false := by
  refine ⟨?_, ?_, ?_, ?_, ?_, rfl, rfl⟩
  · intro h
    simp [updateFromPayload, h]
  · intro h
    simp [updateFromPayload, h]
  · intro h
    cases hb : p.board with
    | none => simp [updateFromPayload, hb]
    | some b =>
        rw [hb] at h
        simp only [boardValid, beq_eq_false_iff_ne, ne_eq] at h
        simp [updateFromPayload, hb, h]
  · intro b hb hlen
    simp [updateFromPayload, hb, hlen]
  · intro h
    rw [nextPlayerValid] at h
    simp only [Bool.or_eq_false_iff, beq_eq_false_iff_ne, ne_eq] at h
    simp [updateFromPayload, h.1, h.2]

/-- Witness for C1: concrete instance of `updateFromPayload_validation`
at the empty payload over `sampleWinState`. -/
theorem updateFromPayload_validation_witness :
    (updateFromPayload emptyPayload sampleWinState).gameId = sampleWinState.gameId
    ∧ (updateFromPayload emptyPayload sampleWinState).board = sampleWinState.board
    ∧ (updateFromPayload emptyPayload sampleWinState).winner = none :=
  ⟨(updateFromPayload_validation emptyPayload sampleWinState).1 (by decide),
   (updateFromPayload_validation emptyPayload sampleWinState).2.2.1 (by decide),
   (updateFromPayload_validation emptyPayload sampleWinState).2.2.2.2.2.1⟩

/-- C4: a payload whose `nextPlayer` field is missing or invalid but whose
`board` is a valid 9-element array leaves the previous `nextPlayer`
unchanged while replacing the board with the payload's array. -/
theorem updateFromPayload_missing_nextPlayer_keeps_turn (p : Payload)
    (s : GameState) (b : List (Option Mark)) (hb : p.board = some b)
    (hlen : b.length = 9) (hnp : nextPlayerValid p.nextPlayer = false) :
    (updateFromPayload p s).nextPlayer = s.nextPlayer
    ∧ (updateFromPayload p s).board = b := by
  rw [nextPlayerValid] at hnp
  simp only [Bool.or_eq_false_iff, beq_eq_false_iff_ne, ne_eq] at hnp
  constructor
  · simp [updateFromPayload, hnp.1, hnp.2]
  · simp [updateFromPayload, hb, hlen]

/-- Witness for C4: the spec's move response with its `nextPlayer`
removed, adopted over the finished-game state. -/
theorem updateFromPayload_missing_nextPlayer_keeps_turn_witness :
    (updateFromPayload movePayload sampleWinState).nextPlayer = Mark.O
    ∧ (updateFromPayload movePayload sampleWinState).board = moveBoard := by
  have h := updateFromPayload_missing_nextPlayer_keeps_turn movePayload
    sampleWinState moveBoard rfl (by decide) (by decide)
  exact ⟨h.1, h.2⟩

/-- C3: for any cell index in `0..8`, a press while `canPlay` is false,
or with no game id, or on an occupied cell, issues no network call and
returns the state unchanged. -/
theorem onCellPress_guarded_noop (s : GameState) (i : Int) (r : FetchResult)
    (_hi : 0 ≤ i ∧ i < 9)
    (h : canPlay s = false ∨ s.gameId = none
        ∨ ∃ m, jsCellAt s.board i = some (some m)) :
    onCellPress s i r = (s, false) := by
  rcases h with hc | hg | ⟨m, hm⟩
  · simp [onCellPress, hc]
  · cases hcp : canPlay s <;>
      simp [onCellPress, hcp, hg, gameIdFalsy]
  · cases hcp : canPlay s <;> cases hgf : gameIdFalsy s.gameId <;>
      simp [onCellPress, hcp, hgf, hm]

/-- Witness for C3: pressing the already-occupied centre cell of the
post-move board is a no-op. -/
theorem onCellPress_guarded_noop_witness :
    onCellPress (updateFromPayload movePayload sampleWinState) 4 r500
      = (updateFromPayload movePayload sampleWinState, false) :=
  onCellPress_guarded_noop (updateFromPayload movePayload sampleWinState) 4 r500
    (by decide) (Or.inr (Or.inr ⟨Mark.X, by decide⟩))

/-- C10: pressing with an index outside `0..8` on the 9-element board is
a total no-op: JavaScript indexing yields `undefined`, which fails the
strict `!== null` emptiness test, so no request is issued and no state
changes. -/
theorem onCellPress_out_of_range_noop (s : GameState) (i : Int)
    (r : FetchResult) (hlen : s.board.length = 9) (hi : i < 0 ∨ 9 ≤ i) :
    onCellPress s i r = (s, false) := by
  have hcell : jsCellAt s.board i = none := by
    rcases hi with hneg | hbig
    · simp [jsCellAt, hneg]
    · have hpos : ¬ i < 0 := by omega
      have hle : s.board.length ≤ i.toNat := by omega
      have hget : s.board.get? i.toNat = none := List.get?_eq_none.mpr hle
      simp [jsCellAt, hpos, hget, hle]
  cases hcp : canPlay s <;> cases hgf : gameIdFalsy s.gameId <;>
    simp [onCellPress, hcp, hgf, hcell]

/-- Witness for C10: index 9 on the freshly created game is a no-op. -/
theorem onCellPress_out_of_range_noop_witness :
    onCellPress scenarioInit 9 r500 = (scenarioInit, false) :=
  onCellPress_out_of_range_noop scenarioInit 9 r500 (by decide)
    (Or.inr (by decide))

/-- Payload adoption preserves the 9-entry board: the board is only
replaced when the payload's array has length exactly 9. -/
theorem updateFromPayload_board_length (p : Payload) (s : GameState)
    (h : s.board.length = 9) : (updateFromPayload p s).board.length = 9 := by
  cases hb : p.board with
  | none => simpa [updateFromPayload, hb] using h
  | some b =>
      by_cases hl : b.length = 9
      · simp [updateFromPayload, hb, hl]
      · simpa [updateFromPayload, hb, hl] using h

/-- Every cell-press outcome preserves the 9-entry board. -/
theorem onCellPress_board_length (s : GameState) (i : Int) (r : FetchResult)
    (h : s.board.length = 9) : (onCellPress s i r).1.board.length = 9 := by
  cases hcp : canPlay s with
  | false => simpa [onCellPress, hcp] using h
  | true =>
    cases hgf : gameIdFalsy s.gameId with
    | true => simpa [onCellPress, hcp, hgf] using h
    | false =>
      by_cases hc : jsCellAt s.board i = some none
      · cases r with
        | netError m => simpa [onCellPress, hcp, hgf, hc] using h
        | response ok st t j =>
          cases ok with
          | false => simpa [onCellPress, hcp, hgf, hc] using h
          | true =>
            cases j with
            | error m => simpa [onCellPress, hcp, hgf, hc] using h
            | ok p =>
                simpa [onCellPress, hcp, hgf, hc] using
                  updateFromPayload_board_length p s h
      · simpa [onCellPress, hcp, hgf, hc] using h

/-- Every reset outcome preserves the 9-entry board. -/
theorem onReset_board_length (s : GameState) (r : FetchResult)
    (h : s.board.length = 9) : (onReset s r).1.board.length = 9 := by
  cases hgf : gameIdFalsy s.gameId with
  | true => simpa [onReset, hgf] using h
  | false =>
    cases r with
    | netError m => simpa [onReset, hgf] using h
    | response ok st t j =>
      cases ok with
      | false => simpa [onReset, hgf] using h
      | true =>
        cases j with
        | error m => simpa [onReset, hgf] using h
        | ok p =>
            simpa [onReset, hgf] using updateFromPayload_board_length p s h

/-- Every initialisation outcome preserves the 9-entry board. -/
theorem initOp_board_length (s : GameState) (hres cres : FetchResult)
    (h : s.board.length = 9) : (initOp s hres cres).1.board.length = 9 := by
  cases hres with
  | netError m => simpa [initOp] using h
  | response ok st t j =>
    cases ok with
    | false => simpa [initOp] using h
    | true =>
      cases cres with
      | netError m => simpa [initOp] using h
      | response cok cst ct cj =>
        cases cok with
        | false => simpa [initOp] using h
        | true =>
          cases cj with
          | error m => simpa [initOp] using h
          | ok p => simpa [initOp] using updateFromPayload_board_length p s h

/-- C5: the board always has exactly 9 entries — it starts with 9 and
initialisation, move, reset (each including payload adoption and every
error path) preserve this. -/
theorem reachable_board_length_nine (s : GameState) (h : Reachable s) :
    s.board.length = 9 := by
  induction h with
  | init => simp [initialState]
  | initOp hres cres _ ih => exact initOp_board_length _ hres cres ih
  | move i r _ ih => exact onCellPress_board_length _ i r ih
  | reset r _ ih => exact onReset_board_length _ r ih

/-- Witness for C5: the invariant evaluated at the initial state. -/
theorem reachable_board_length_nine_witness : initialState.board.length = 9 :=
  reachable_board_length_nine initialState Reachable.init

/-- Payload adoption never clears a non-null game id: the id is only
overwritten when the payload's id is truthy. -/
theorem updateFromPayload_gameId_ne_none (p : Payload) (s : GameState)
    (h : s.gameId ≠ none) : (updateFromPayload p s).gameId ≠ none := by
  cases hid : idTruthy p.id with
  | false => simpa [updateFromPayload, hid] using h
  | true =>
    cases hpid : p.id with
    | none => rw [hpid] at hid; simp [idTruthy] at hid
    | some t => rw [hpid] at hid; simp [updateFromPayload, hpid, hid]

/-- C9: once `gameId` is non-null no operation sets it back to null —
payload adoption only overwrites it with a truthy id, and every guard and
error path leaves it untouched. -/
theorem gameId_monotone (s : GameState) (h : s.gameId ≠ none) :
    (∀ p, (updateFromPayload p s).gameId ≠ none)
    ∧ (∀ hres cres, ((initOp s hres cres).1).gameId ≠ none)
    ∧ (∀ i r, ((onCellPress s i r).1).gameId ≠ none)
    ∧ (∀ r, ((onReset s r).1).gameId ≠ none) := by
  refine ⟨fun p => updateFromPayload_gameId_ne_none p s h, ?_, ?_, ?_⟩
  · intro hres cres
    cases hres with
    | netError m => simpa [initOp] using h
    | response ok st t j =>
      cases ok with
      | false => simpa [initOp] using h
      | true =>
        cases cres with
        | netError m => simpa [initOp] using h
        | response cok cst ct cj =>
          cases cok with
          | false => simpa [initOp] using h
          | true =>
            cases cj with
            | error m => simpa [initOp] using h
            | ok p =>
                simpa [initOp] using updateFromPayload_gameId_ne_none p s h
  · intro i r
    cases hcp : canPlay s with
    | false => simpa [onCellPress, hcp] using h
    | true =>
      cases hgf : gameIdFalsy s.gameId with
      | true => simpa [onCellPress, hcp, hgf] using h
      | false =>
        by_cases hc : jsCellAt s.board i = some none
        · cases r with
          | netError m => simpa [onCellPress, hcp, hgf, hc] using h
          | response ok st t j =>
            cases ok with
            | false => simpa [onCellPress, hcp, hgf, hc] using h
            | true =>
              cases j with
              | error m => simpa [onCellPress, hcp, hgf, hc] using h
              | ok p =>
                  simpa [onCellPress, hcp, hgf, hc] using
                    updateFromPayload_gameId_ne_none p s h
        · simpa [onCellPress, hcp, hgf, hc] using h
  · intro r
    cases hgf : gameIdFalsy s.gameId with
    | true => simpa [onReset, hgf] using h
    | false =>
      cases r with
      | netError m => simpa [onReset, hgf] using h
      | response ok st t j =>
        cases ok with
        | false => simpa [onReset, hgf] using h
        | true =>
          cases j with
          | error m => simpa [onReset, hgf] using h
          | ok p =>
              simpa [onReset, hgf] using updateFromPayload_gameId_ne_none p s h

/-- Witness for C9: `sampleWinState` has a game id; adoption of the empty
payload and a failed reset both keep it non-null. -/
theorem gameId_monotone_witness :
    (updateFromPayload emptyPayload sampleWinState).gameId ≠ none
    ∧ ((onReset sampleWinState r500).1).gameId ≠ none :=
  ⟨(gameId_monotone sampleWinState (by decide)).1 emptyPayload,
   (gameId_monotone sampleWinState (by decide)).2.2.2 r500⟩

/-- C2: a non-2xx response from the move, reset or create endpoint (the
latter reached with a successful health check) leaves `board`, `winner`
and `isDraw` unchanged and sets a status message starting with
`Error: `. The move and reset parts are stated for the runs that actually
issue the request (second component `true`). -/
theorem nonOk_response_preserves_state (s : GameState) (i : Int)
    (status : Nat) (text : String) (j : Except String Payload)
    (hst : Nat) (htx : String) (hj : Except String Payload) :
    ((onCellPress s i (FetchResult.response false status text j)).2 = true →
      (onCellPress s i (FetchResult.response false status text j)).1.board = s.board
      ∧ (onCellPress s i (FetchResult.response false status text j)).1.winner = s.winner
      ∧ (onCellPress s i (FetchResult.response false status text j)).1.isDraw = s.isDraw
      ∧ ∃ rest, (onCellPress s i (FetchResult.response false status text j)).1.statusMessage
          = "Error: " ++ rest)
    ∧ ((onReset s (FetchResult.response false status text j)).2 = true →
      (onReset s (FetchResult.response false status text j)).1.board = s.board
      ∧ (onReset s (FetchResult.response false status text j)).1.winner = s.winner
      ∧ (onReset s (FetchResult.response false status text j)).1.isDraw = s.isDraw
      ∧ ∃ rest, (onReset s (FetchResult.response false status text j)).1.statusMessage
          = "Error: " ++ rest)
    ∧ ((initOp s (FetchResult.response true hst htx hj)
          (FetchResult.response false status text j)).1.board = s.board
      ∧ (initOp s (FetchResult.response true hst htx hj)
          (FetchResult.response false status text j)).1.winner = s.winner
      ∧ (initOp s (FetchResult.response true hst htx hj)
          (FetchResult.response false status text j)).1.isDraw = s.isDraw
      ∧ ∃ rest, (initOp s (FetchResult.response true hst htx hj)
          (FetchResult.response false status text j)).1.statusMessage
          = "Error: " ++ rest) := by
  refine ⟨?_, ?_, ?_⟩
  · intro h2
    cases hcp : canPlay s with
    | false => simp [onCellPress, hcp] at h2
    | true =>
      cases hgf : gameIdFalsy s.gameId with
      | true => simp [onCellPress, hcp, hgf] at h2
      | false =>
        by_cases hc : jsCellAt s.board i = some none
        · refine ⟨?_, ?_, ?_,
            ⟨jsTrim ("Move failed: " ++ toString status ++ " " ++ text), ?_⟩⟩ <;>
            simp [onCellPress, hcp, hgf, hc]
        · simp [onCellPress, hcp, hgf, hc] at h2
  · intro h2
    cases hgf : gameIdFalsy s.gameId with
    | true => simp [onReset, hgf] at h2
    | false =>
        refine ⟨?_, ?_, ?_,
          ⟨jsTrim ("Reset failed: " ++ toString status ++ " " ++ text), ?_⟩⟩ <;>
          simp [onReset, hgf]
  · refine ⟨?_, ?_, ?_,
      ⟨"Failed to create game: " ++ toString status, ?_⟩⟩ <;> simp [initOp]

/-- Witness for C2: the freshly created game, a failed move and a failed
reset with a 500 response. -/
theorem nonOk_response_preserves_state_witness :
    (onCellPress scenarioInit 4 r500).1.board = scenarioInit.board
    ∧ (onReset scenarioInit r500).1.winner = scenarioInit.winner :=
  ⟨((nonOk_response_preserves_state scenarioInit 4 500 "boom" (Except.error "")
      200 "" (Except.error "")).1 (by decide)).1,
   (((nonOk_response_preserves_state scenarioInit 4 500 "boom" (Except.error "")
      200 "" (Except.error "")).2.1) (by decide)).2.1⟩

/-- C7: when the health check yields a non-success response, the
create-game request is never issued, the status message records an error
and `gameId` stays null. -/
theorem health_failure_skips_create (status : Nat) (text : String)
    (j : Except String Payload) (c : FetchResult) :
    (initOp initialState (FetchResult.response false status text j) c).2 = false
    ∧ (initOp initialState (FetchResult.response false status text j) c).1.gameId = none
    ∧ ∃ rest, (initOp initialState (FetchResult.response false status text j) c).1.statusMessage
        = "Error: " ++ rest := by
  refine ⟨?_, ?_, ⟨"Health check failed: " ++ toString status, ?_⟩⟩ <;>
    simp [initOp, initialState]

/-- C8: after a successful create-game response carrying a valid
9-element board, every rendered cell is the fixed emoji of its board
entry (`X` as the cross, `O` as the hollow circle, empty as the white
square), loading is over, and with no winner and no draw the status line
shows the next player's turn. -/
theorem create_success_renders (s : GameState) (p : Payload)
    (b : List (Option Mark)) (hst : Nat) (htx : String)
    (hj : Except String Payload) (cst : Nat) (ctx : String)
    (hb : p.board = some b) (hlen : b.length = 9) :
    renderedCells (initOp s (FetchResult.response true hst htx hj)
        (FetchResult.response true cst ctx (Except.ok p))).1 = b.map toEmoji
    ∧ toEmoji (some Mark.X) = "❌"
    ∧ toEmoji (some Mark.O) = "⭕️"
    ∧ toEmoji none = "⬜️"
    ∧ (initOp s (FetchResult.response true hst htx hj)
        (FetchResult.response true cst ctx (Except.ok p))).1.isLoading = false
    ∧ (p.winner.getD none = none → p.isDraw.getD false = false →
        computedStatus (initOp s (FetchResult.response true hst htx hj)
            (FetchResult.response true cst ctx (Except.ok p))).1
          = "Turn: " ++ markEmoji (initOp s (FetchResult.response true hst htx hj)
              (FetchResult.response true cst ctx (Except.ok p))).1.nextPlayer)
    ∧ (p.nextPlayer = some "X" →
        (initOp s (FetchResult.response true hst htx hj)
          (FetchResult.response true cst ctx (Except.ok p))).1.nextPlayer = Mark.X) := by
  refine ⟨?_, rfl, rfl, rfl, rfl, ?_, ?_⟩
  · simp [initOp, renderedCells, updateFromPayload, hb, hlen]
  · intro hw hd
    simp [initOp, computedStatus, updateFromPayload, hw, hd]
  · intro hnp
    simp [initOp, updateFromPayload, hnp]

/-- Witness for C8: the spec's scenario — create returns `g1`, an empty
board and next player `X`; the status reads `Turn:` with the cross and
all nine cells render the white square. -/
theorem create_success_renders_witness :
    renderedCells scenarioInit = List.replicate 9 "⬜️"
    ∧ computedStatus scenarioInit = "Turn: ❌" := by
  have h := create_success_renders initialState scenarioPayload
    (List.replicate 9 none) 200 "" (Except.error "") 200 "" rfl (by decide)
  have hcells := h.1
  have hstat := h.2.2.2.2.2.1 (by decide) (by decide)
  have hnp := h.2.2.2.2.2.2 rfl
  constructor
  · rw [show scenarioInit = (initOp initialState
      (FetchResult.response true 200 "" (Except.error ""))
      (FetchResult.response true 200 "" (Except.ok scenarioPayload))).1 from rfl,
      hcells]
    decide
  · rw [show scenarioInit = (initOp initialState
      (FetchResult.response true 200 "" (Except.error ""))
      (FetchResult.response true 200 "" (Except.ok scenarioPayload))).1 from rfl,
      hstat, hnp]
    decide

/-- C6: base-URL resolution agrees everywhere with the claim's wording —
the environment URL when non-empty after trimming, otherwise the
localhost fallback; returned unchanged when it already ends in `/api`,
otherwise trailing slashes are stripped and `/api` appended. -/
theorem apiBase_eq_apiBaseSpec (e : Option String) :
    apiBase e = apiBaseSpec e := by
  cases e with
  | none => rfl
  | some s =>
      have key : (s ≠ "" ∧ 0 < (jsTrim s).length) ↔ jsTrim s ≠ "" := by
        constructor
        · rintro ⟨-, hlen⟩ h0
          rw [h0] at hlen
          exact Nat.lt_irrefl 0 hlen
        · intro h
          refine ⟨?_, ?_⟩
          · rintro rfl
            exact h rfl
          · have hd : (jsTrim s).data ≠ [] := fun hnil => h (String.ext hnil)
            exact List.length_pos.mpr hd
      simp only [apiBase, apiBaseSpec, key]

end TicTacToe
